import Mathlib

/-!
Shallow embedding of the genomic data provisioning and caching layer of the
ProCESS repository (`src/genomic_data_storage.cpp` together with its header):
the `GenomicDataStorage` composite store, the `GermlineStorage` sub-store, the
URL/path classification helpers and the download/timeout wrapper.

The filesystem is modelled as a pair of predicates (existence and
is-directory), R-level side effects (downloads, decompressions, renames,
archive extraction, authenticated COSMIC fetches) are recorded as values of an
`Effect` type, and every fallible routine returns `Except String`, carrying
the exact message built by the C++ code.  C++ `size_t` arithmetic on
`std::string::npos` is modelled on `Nat` with an explicit `% 2 ^ 64`.
-/

namespace ProCESS

/-- A filesystem snapshot: which paths exist and which are directories
(`std::filesystem::exists` / `std::filesystem::is_directory`). -/
structure FS where
  ex : String → Bool
  isDir : String → Bool

/-- External side effects performed by the storage layer.  A COSMIC fetch is
the per-file body of the authenticated `rvest` session (log in once, then
navigate to each URL and write the response body); the session internals run
in R and are modelled as one `cosmicFetch` effect per queued file. -/
inductive Effect where
  | download (url dst : String)
  | rename (src dst : String)
  | decompress (tool src dst : String)
  | cosmicFetch (url dst : String)
  | untar (tarfile exdir : String)
deriving DecidableEq

/-- `std::filesystem::path::operator/`: join a directory and a file name. -/
def pjoin (dir name : String) : String := dir ++ "/" ++ name

/-- Index of the last occurrence of `c` (C++ `std::string::find_last_of`),
`none` playing the role of `npos`. -/
def lastIdxOf : List Char → Char → Option Nat
  | [], _ => none
  | a :: as, c =>
    match lastIdxOf as c with
    | some i => some (i + 1)
    | none => if a = c then some 0 else none

/-- Index of the first occurrence of an element (C++ `find` over a range,
`std::string::find`), `none` when absent. -/
def firstIdxOf {α : Type} [DecidableEq α] : List α → α → Option Nat
  | [], _ => none
  | a :: as, c => if a = c then some 0 else (firstIdxOf as c).map (· + 1)

/-- `std::string::npos` on a 64-bit platform. -/
def NPOS : Nat := 2 ^ 64 - 1

/-- `std::string::substr(pos)`: throws `std::out_of_range` when
`pos > size()`, otherwise yields the suffix starting at `pos`. -/
def cppSubstrFrom (l : List Char) (pos : Nat) : Except String (List Char) :=
  if pos ≤ l.length then .ok (l.drop pos) else .error "out_of_range"

/-- Is `sub` a contiguous substring of the char list? (used to state that an
error message names a file or a directory). -/
def listContainsSub : List Char → List Char → Bool
  | sub, [] => sub.isEmpty
  | sub, c :: cs => sub.isPrefixOf (c :: cs) || listContainsSub sub cs

/-- Is `sub` a contiguous substring of `s`? -/
def strContains (s sub : String) : Bool := listContainsSub sub.toList s.toList

/-- The fixed protocol set of `GenomicDataStorage::is_an_URL`. -/
def protocols : List String := ["ftp://", "http://", "https://"]

/-- `GenomicDataStorage::is_an_URL`: does the string begin with one of the
recognized protocols (`reference.find(protocol) == 0`)? -/
def is_an_URL (s : String) : Bool :=
  protocols.any fun p => p.toList.isPrefixOf s.toList

/-- The six configured dataset sources and the storage directory of a
`GenomicDataStorage` (the constructor's stored fields). -/
structure GenomicDataStorage where
  directory : String
  reference_src : String
  SBS_signatures_src : String
  indel_signatures_src : String
  drivers_src : String
  passenger_CNAs_src : String
  germline_src : String

/-- `GenomicDataStorage::reference_storage_path`. -/
def reference_storage_path (g : GenomicDataStorage) : String :=
  pjoin g.directory "reference.fasta"

/-- `GenomicDataStorage::signatures_storage_path<SBSType>`. -/
def SBS_signatures_storage_path (g : GenomicDataStorage) : String :=
  pjoin g.directory "SBS_signatures.txt"

/-- `GenomicDataStorage::signatures_storage_path<IDType>`. -/
def indel_signatures_storage_path (g : GenomicDataStorage) : String :=
  pjoin g.directory "indel_signatures.txt"

/-- `GenomicDataStorage::driver_mutations_storage_path`. -/
def driver_mutations_storage_path (g : GenomicDataStorage) : String :=
  pjoin g.directory "drivers.txt"

/-- `GenomicDataStorage::passenger_CNAs_storage_path`. -/
def passenger_CNAs_storage_path (g : GenomicDataStorage) : String :=
  pjoin g.directory "passenger_CNAs.txt"

/-- `GenomicDataStorage::germline_storage_path`. -/
def germline_storage_path (g : GenomicDataStorage) : String :=
  pjoin g.directory "germline_data"

/-- `GenomicDataStorage::get_reference_path`. -/
def get_reference_path (g : GenomicDataStorage) (fs : FS) : String :=
  if fs.ex g.reference_src then g.reference_src else reference_storage_path g

/-- `GenomicDataStorage::get_driver_mutations_path`. -/
def get_driver_mutations_path (g : GenomicDataStorage) (fs : FS) : String :=
  if fs.ex g.drivers_src then g.drivers_src else driver_mutations_storage_path g

/-- `GenomicDataStorage::get_passenger_CNAs_path`. -/
def get_passenger_CNAs_path (g : GenomicDataStorage) (fs : FS) : String :=
  if fs.ex g.passenger_CNAs_src then g.passenger_CNAs_src else passenger_CNAs_storage_path g

/-- `GenomicDataStorage::get_germline_path`. -/
def get_germline_path (g : GenomicDataStorage) (fs : FS) : String :=
  if fs.ex g.germline_src then g.germline_src else germline_storage_path g

/-- `GenomicDataStorage::get_signatures_path<SBSType>`. -/
def get_SBS_signatures_path (g : GenomicDataStorage) (fs : FS) : String :=
  if fs.ex g.SBS_signatures_src then g.SBS_signatures_src else SBS_signatures_storage_path g

/-- `GenomicDataStorage::get_signatures_path<IDType>`. -/
def get_indel_signatures_path (g : GenomicDataStorage) (fs : FS) : String :=
  if fs.ex g.indel_signatures_src then g.indel_signatures_src else indel_signatures_storage_path g

/-- The query-string strip of `GenomicDataStorage::get_destination_path`:
when the file name contains a `?`, keep `filename.substr(0, question_occurrence)`. -/
def strip_at_question (fchars : List Char) : List Char :=
  match firstIdxOf fchars '?' with
  | some q => fchars.take q
  | none => fchars

/-- `GenomicDataStorage::get_destination_path`.  The C++ body runs inside a
try block whose catch rethrows `"<url>" is not a valid URL.`; the only
throwing operation is `substr`.  `find_last_of` returns `npos` when the URL
has no `/`, and `npos + 1` wraps to `0` in `size_t` arithmetic, so the whole
string is then taken as the file name.  A trailing `?...` query is stripped. -/
def get_destination_path (directory url : String) : Except String String :=
  let name_occurrence : Nat :=
    ((match lastIdxOf url.toList '/' with
      | some i => i
      | none => NPOS) + 1) % 2 ^ 64
  match cppSubstrFrom url.toList name_occurrence with
  | .error _ => .error ("\"" ++ url ++ "\" is not a valid URL.")
  | .ok fchars => .ok (pjoin directory (String.mk (strip_at_question fchars)))

/-- The suffix of the downloaded reference file:
`downloaded_file.substr(downloaded_file.find_last_of('.')+1)`.  Here `substr`
cannot throw: the position is `0` when there is no dot (`npos + 1` wraps) and
at most the length otherwise. -/
def suffix_of (filename : String) : String :=
  let pos : Nat :=
    ((match lastIdxOf filename.toList '.' with
      | some i => i
      | none => NPOS) + 1) % 2 ^ 64
  String.mk (filename.toList.drop pos)

/-- The global `decompressors` table of `genomic_data_storage.cpp`. -/
def decompressors : List (String × String) := [("gz", "gunzip"), ("bz2", "bunzip2")]

/-- `std::map::find` over a small association list. -/
def lookupStr : List (String × String) → String → Option String
  | [], _ => none
  | (k, v) :: rest, s => if k = s then some v else lookupStr rest s

/-- The post-download suffix handling of `GenomicDataStorage::retrieve_reference`:
the literal condition `suffix == "fa" && suffix == "fasta"` guards the rename,
otherwise the suffix is looked up in `decompressors` and an absent entry
raises `Unknown suffix "<suffix>"`. -/
def reference_suffix_step (downloaded_file reference_filename : String) :
    Except String Effect :=
  let suffix := suffix_of downloaded_file
  if suffix = "fa" ∧ suffix = "fasta" then
    .ok (.rename downloaded_file reference_filename)
  else
    match lookupStr decompressors suffix with
    | some tool => .ok (.decompress tool downloaded_file reference_filename)
    | none => .error ("Unknown suffix \"" ++ suffix ++ "\"")

/-- `GenomicDataStorage::retrieve_reference`: the returned effects are the
download of the source followed by the rename/decompress action; a cache or
local hit yields no effect. -/
def retrieve_reference (g : GenomicDataStorage) (fs : FS) : Except String (List Effect) :=
  if !is_an_URL g.reference_src && !fs.ex g.reference_src then
    .error ("Designed reference genome file \"" ++ g.reference_src ++ "\" does not exists.")
  else
    let reference_filename := get_reference_path g fs
    if fs.ex reference_filename then .ok []
    else
      match get_destination_path g.directory g.reference_src with
      | .error e => .error e
      | .ok downloaded_file =>
        match reference_suffix_step downloaded_file reference_filename with
        | .error e => .error e
        | .ok act => .ok [.download g.reference_src downloaded_file, act]

/-- `GenomicDataStorage::retrieve_drivers`. -/
def retrieve_drivers (g : GenomicDataStorage) (fs : FS) : Except String (List Effect) :=
  if fs.ex g.drivers_src then .ok []
  else if !is_an_URL g.drivers_src && !fs.ex g.drivers_src then
    .error ("Designed driver mutations file \"" ++ g.drivers_src ++ "\" does not exists.")
  else
    let mutations_filename := get_driver_mutations_path g fs
    if fs.ex mutations_filename then .ok []
    else .ok [.download g.drivers_src mutations_filename]

/-- `GenomicDataStorage::retrieve_passenger_CNAs`. -/
def retrieve_passenger_CNAs (g : GenomicDataStorage) (fs : FS) : Except String (List Effect) :=
  if fs.ex g.passenger_CNAs_src then .ok []
  else if !is_an_URL g.passenger_CNAs_src then
    .error ("Designed passenger CNAs file \"" ++ g.passenger_CNAs_src ++ "\" does not exists.")
  else
    let passenger_CNAs_filename := passenger_CNAs_storage_path g
    if fs.ex passenger_CNAs_filename then .ok []
    else .ok [.download g.passenger_CNAs_src passenger_CNAs_filename]

/-- `GenomicDataStorage::retrieve_germline`: the cache test is the existence
of the single file `germline_data/germlines.csv`; on a miss the archive is
downloaded and extracted (`untar`) into the storage directory. -/
def retrieve_germline (g : GenomicDataStorage) (fs : FS) : Except String (List Effect) :=
  if fs.ex g.germline_src then .ok []
  else if !is_an_URL g.germline_src then
    .error ("Designed germline directory \"" ++ g.germline_src ++ "\" does not exists.")
  else
    let germline_path := germline_storage_path g
    if fs.ex (pjoin germline_path "germlines.csv") then .ok []
    else
      match get_destination_path g.directory g.germline_src with
      | .error e => .error e
      | .ok downloaded_file =>
        .ok [.download g.germline_src downloaded_file, .untar downloaded_file g.directory]

/-- A COSMIC `Account` (username/password pair). -/
structure Account where
  username : String
  password : String

/-- The character class `[a-zA-Z0-9_-]` of the COSMIC site regex. -/
def isWordChar (c : Char) : Bool := c.isAlpha || c.isDigit || c = '_' || c = '-'

/-- Match one arbitrary character (an unescaped `.` in the regex) followed by
the literal `lit`, returning the rest of the input. -/
def matchDotLit (lit : List Char) : List Char → Option (List Char)
  | [] => none
  | _ :: rest => if lit.isPrefixOf rest then some (rest.drop lit.length) else none

/-- Match the `.sanger.ac.uk` tail of the COSMIC regex (each dot an arbitrary
character) at the head of the input. -/
def matchCOSMICTail (l : List Char) : Bool :=
  match matchDotLit "sanger".toList l with
  | none => false
  | some r1 =>
    match matchDotLit "ac".toList r1 with
    | none => false
    | some r2 => (matchDotLit "uk".toList r2).isSome

/-- Match `[a-zA-Z0-9_-]*` followed by the COSMIC tail: at every position
either the tail matches, or one more word character is consumed. -/
def starMatch : List Char → Bool
  | [] => matchCOSMICTail []
  | c :: cs => matchCOSMICTail (c :: cs) || (isWordChar c && starMatch cs)

/-- `std::regex_search` with the anchored pattern
`^https://([a-zA-Z0-9_-]*).sanger.ac.uk` of `signatures_from_COSMIC`. -/
def cosmic_regex_search (s : String) : Bool :=
  "https://".toList.isPrefixOf s.toList && starMatch (s.toList.drop 8)

/-- `signatures_from_COSMIC`: does any queued source URL match the COSMIC
site pattern? -/
def signatures_from_COSMIC (download_list : List (String × String)) : Bool :=
  download_list.any fun p => cosmic_regex_search p.1

/-- The message of the `Rcpp::stop` raised by `download_COSMIC` when no
COSMIC account was provided. -/
def COSMIC_account_message : String :=
  "Since April 2nd, 2025, COSMIC site (https://cancer.sanger.ac.uk/cosmic/)\n" ++
  "requires an account. Create an account, download SBS and ID mutation signature\n" ++
  "files, and pass them as parameters to `MutationEngine()` call. In alternative,\n" ++
  "provide COSMIC account details to `MutationEngine()` and let ProCESS download\n" ++
  "the signature files.\n"

/-- `download_COSMIC`: fatal error without an account, otherwise the whole
batch is fetched through the one authenticated session. -/
def download_COSMIC (acct : Option Account) (download_list : List (String × String)) :
    Except String (List Effect) :=
  match acct with
  | none => .error COSMIC_account_message
  | some _ => .ok (download_list.map fun p => Effect.cosmicFetch p.1 p.2)

/-- `GenomicDataStorage::collect_signatures_download_list` for one signature
kind: skip when the storage copy or the local source exists, fail when the
remaining source is not a URL, otherwise append the pair to the list. -/
def collect_signatures_download_list (fs : FS) (source dst_filename : String)
    (download_list : List (String × String)) : Except String (List (String × String)) :=
  if fs.ex dst_filename then .ok download_list
  else if fs.ex source then .ok download_list
  else if !is_an_URL source then
    .error ("Signature file \"" ++ source ++ "\" does not exists.")
  else .ok (download_list ++ [(source, dst_filename)])

/-- `GenomicDataStorage::retrieve_signatures`: collect the SBS then the indel
entries into one list, then route the whole batch through the authenticated
COSMIC path or through independent plain downloads. -/
def retrieve_signatures (g : GenomicDataStorage) (fs : FS) (acct : Option Account) :
    Except String (List Effect) :=
  match collect_signatures_download_list fs g.SBS_signatures_src
          (SBS_signatures_storage_path g) [] with
  | .error e => .error e
  | .ok l1 =>
    match collect_signatures_download_list fs g.indel_signatures_src
            (indel_signatures_storage_path g) l1 with
    | .error e => .error e
    | .ok download_list =>
      if signatures_from_COSMIC download_list then download_COSMIC acct download_list
      else .ok (download_list.map fun p => Effect.download p.1 p.2)

/-- The process-wide R options relevant to `download_file` (the `timeout`
option read through `getOption` and written through `options`). -/
structure ROptions where
  timeout : Int

/-- The free function `download_file(url, dest)` restricted to its timeout
discipline: read the current timeout, raise it to `max(1000, timeout)`, run
`download.file` under the raised value, and restore the original value only
after `download.file` returns.  An error raised by `download.file` propagates
as an exception, so the restoring `options` call is skipped on that path.
Returns (outcome, final options, effective timeout during the transfer). -/
def download_file_timeout (opts : ROptions) (download_raises : Bool) :
    Except Unit Unit × ROptions × Int :=
  let timeout := opts.timeout
  let raised : ROptions := { timeout := max 1000 timeout }
  let transfer_timeout := raised.timeout
  if download_raises then
    (.error (), raised, transfer_timeout)
  else
    (.ok (), { timeout := timeout }, transfer_timeout)

/-- `GermlineStorage::get_file`. -/
def germline_file (dir : String) : String := pjoin dir "germlines.csv"

/-- `GermlineStorage::get_population_file`. -/
def population_file (dir : String) : String := pjoin dir "population.csv"

/-- `GermlineStorage::get_population_descriptions_file`. -/
def population_descriptions_file (dir : String) : String :=
  pjoin dir "population_descriptions.csv"

/-- `GermlineStorage::get_alleles_file`. -/
def alleles_file (dir : String) : String := pjoin dir "alleles_per_chr.csv"

/-- The validating `GermlineStorage` constructor: existence, directoriness,
then the four required files, each missing one reported with the message
built in the C++ source (note the message for a missing `germlines.csv`
spells the file `germline.csv`). -/
def GermlineStorage_ctor (fs : FS) (directory : String) : Except String Unit :=
  if !fs.ex directory then
    .error ("Designed germline mutations directory \"" ++ directory ++ "\" does not exist.")
  else if !fs.isDir directory then
    .error ("Designed germline mutations directory \"" ++ directory ++ "\" is not a directory.")
  else if !fs.ex (germline_file directory) then
    .error ("Designed germline mutations directory \"" ++ directory ++
            "\" does not contains the file \"germline.csv\".")
  else if !fs.ex (population_file directory) then
    .error ("Designed germline mutations directory \"" ++ directory ++
            "\" does not contains the file \"population.csv\".")
  else if !fs.ex (population_descriptions_file directory) then
    .error ("Designed germline mutations directory \"" ++ directory ++
            "\" does not contains the file \"population_descriptions.csv\".")
  else if !fs.ex (alleles_file directory) then
    .error ("Designed germline mutations directory \"" ++ directory ++
            "\" does not contains the file \"alleles_per_chr.csv\".")
  else .ok ()

/-- A row of `population.csv`: {name, population, super_population, gender}. -/
structure GermlineSubject where
  name : String
  population : String
  super_population : String
  gender : String
deriving DecidableEq

/-- `CSVReader::Row::get_field` over a parsed row. -/
def get_field (row : List String) (i : Nat) : String := row.getD i ""

/-- The subject parsed from one row (fields 0 to 3). -/
def subject_of_row (row : List String) : GermlineSubject :=
  ⟨get_field row 0, get_field row 1, get_field row 2, get_field row 3⟩

/-- `GermlineStorage::get_population`: one subject per data row of
`population.csv`, in file order. -/
def get_population (rows : List (List String)) : List GermlineSubject :=
  rows.map subject_of_row

/-- `GermlineStorage::get_subject`: linear scan for the first row whose first
field equals the requested name. -/
def get_subject (rows : List (List String)) (subject_name : String) :
    Except String GermlineSubject :=
  match rows.find? (fun row => get_field row 0 == subject_name) with
  | some row => .ok (subject_of_row row)
  | none => .error ("Germline subject \"" ++ subject_name ++ "\" not available.")

/-- Lookup in the association-list model of `std::map<ChromosomeId, size_t>`
(chromosome identifiers modelled as `Nat`). -/
def lookupAL : List (Nat × Nat) → Nat → Option Nat
  | [], _ => none
  | (k, v) :: rest, key => if k = key then some v else lookupAL rest key

/-- `std::map::insert`: a no-op when the key is already present. -/
def mapInsert (m : List (Nat × Nat)) (k v : Nat) : List (Nat × Nat) :=
  match lookupAL m k with
  | some _ => m
  | none => m ++ [(k, v)]

/-- `GermlineStorage::get_alleles_per_chromosome`: resolve the gender to its
first column index in the header (`Unknown gender` when absent), then insert
one entry per data row.  The external parsers `GenomicPosition::stochr` and
`std::stoul` are abstract parameters. -/
def get_alleles_per_chromosome (stochr stoul : String → Nat)
    (header : List String) (rows : List (List String)) (gender : String) :
    Except String (List (Nat × Nat)) :=
  match firstIdxOf header gender with
  | none => .error ("Unknown gender " ++ gender ++ ".")
  | some index =>
    .ok (rows.foldl
          (fun m row => mapInsert m (stochr (get_field row 0)) (stoul (get_field row index)))
          [])

/-! ### Helper lemmas -/

theorem lastIdxOf_eq_none_of_not_mem {l : List Char} {c : Char} (h : c ∉ l) :
    lastIdxOf l c = none := by
  induction l with
  | nil => rfl
  | cons a as ih =>
    have h1 : c ∉ as := fun hm => h (List.mem_cons_of_mem a hm)
    have h2 : a ≠ c := fun he => h (he ▸ List.mem_cons_self a as)
    rw [lastIdxOf, ih h1, if_neg h2]

theorem lastIdxOf_isSome_of_mem {l : List Char} {c : Char} (h : c ∈ l) :
    ∃ i, lastIdxOf l c = some i := by
  induction l with
  | nil => cases h
  | cons a as ih =>
    rw [lastIdxOf]
    cases hr : lastIdxOf as c with
    | some i => exact ⟨i + 1, rfl⟩
    | none =>
      have hac : a = c := by
        rcases List.mem_cons.mp h with h' | h'
        · exact h'.symm
        · obtain ⟨i, hi⟩ := ih h'
          rw [hr] at hi
          cases hi
      exact ⟨0, by rw [if_pos hac]⟩

theorem mem_of_lastIdxOf_some {l : List Char} {c : Char} {i : Nat}
    (h : lastIdxOf l c = some i) : c ∈ l := by
  by_contra hc
  rw [lastIdxOf_eq_none_of_not_mem hc] at h
  cases h

theorem lastIdxOf_lt_length {l : List Char} {c : Char} {i : Nat}
    (h : lastIdxOf l c = some i) : i < l.length := by
  induction l generalizing i with
  | nil => cases h
  | cons a as ih =>
    rw [lastIdxOf] at h
    cases hr : lastIdxOf as c with
    | some j =>
      rw [hr] at h
      injection h with h'
      subst h'
      exact Nat.succ_lt_succ (ih hr)
    | none =>
      rw [hr] at h
      by_cases hac : a = c
      · rw [if_pos hac] at h
        injection h with h'
        subst h'
        exact Nat.succ_pos _
      · rw [if_neg hac] at h
        cases h

theorem takeWhile_append_of_not_mem {c : Char} {xs ys : List Char} (h : c ∉ xs) :
    (xs ++ ys).takeWhile (fun x => x != c) = xs ++ ys.takeWhile (fun x => x != c) := by
  induction xs with
  | nil => simp
  | cons a as ih =>
    have h1 : c ∉ as := fun hm => h (List.mem_cons_of_mem a hm)
    have h2 : (a != c) = true := by
      simp only [bne_iff_ne]
      exact fun he => h (he ▸ List.mem_cons_self a as)
    simp [List.takeWhile_cons, h2, ih h1]

theorem takeWhile_append_of_mem {c : Char} {xs ys : List Char} (h : c ∈ xs) :
    (xs ++ ys).takeWhile (fun x => x != c) = xs.takeWhile (fun x => x != c) := by
  induction xs with
  | nil => cases h
  | cons a as ih =>
    by_cases hac : a = c
    · subst hac
      simp [List.takeWhile_cons]
    · have h1 : c ∈ as := by
        rcases List.mem_cons.mp h with h' | h'
        · exact absurd h'.symm hac
        · exact h'
      have h2 : (a != c) = true := by simp [bne_iff_ne, hac]
      simp [List.takeWhile_cons, h2, ih h1]

theorem drop_lastIdxOf_succ {l : List Char} {c : Char} {i : Nat}
    (h : lastIdxOf l c = some i) :
    l.drop (i + 1) = (l.reverse.takeWhile (fun x => x != c)).reverse := by
  induction l generalizing i with
  | nil => cases h
  | cons a as ih =>
    rw [lastIdxOf] at h
    cases hr : lastIdxOf as c with
    | some j =>
      rw [hr] at h
      injection h with h'
      subst h'
      rw [List.drop_succ_cons, ih hr, List.reverse_cons,
          takeWhile_append_of_mem (List.mem_reverse.mpr (mem_of_lastIdxOf_some hr))]
    | none =>
      rw [hr] at h
      by_cases hac : a = c
      · rw [if_pos hac] at h
        injection h with h'
        subst h'
        subst hac
        have hnotin : a ∉ as.reverse := by
          rw [List.mem_reverse]
          intro hm
          obtain ⟨k, hk⟩ := lastIdxOf_isSome_of_mem hm
          rw [hk] at hr
          cases hr
        rw [List.drop_succ_cons, List.drop_zero, List.reverse_cons,
            takeWhile_append_of_not_mem hnotin]
        simp [List.takeWhile_cons]
      · rw [if_neg hac] at h
        cases h

theorem strip_at_question_eq_takeWhile (l : List Char) :
    strip_at_question l = l.takeWhile (fun x => x != '?') := by
  induction l with
  | nil => rfl
  | cons a as ih =>
    rw [strip_at_question, firstIdxOf]
    by_cases hac : a = '?'
    · subst hac
      simp [List.takeWhile_cons]
    · have h2 : (a != '?') = true := by simp [bne_iff_ne, hac]
      rw [if_neg hac]
      rw [strip_at_question] at ih
      cases hf : firstIdxOf as '?' with
      | some q =>
        rw [hf] at ih
        simp only [Option.map_some']
        simpa [List.takeWhile_cons, h2, List.take_succ_cons] using ih
      | none =>
        rw [hf] at ih
        simpa [List.takeWhile_cons, h2] using ih

theorem get_destination_path_ok (dir url : String) :
    ∃ s, get_destination_path dir url = .ok s := by
  simp only [get_destination_path]
  cases h : lastIdxOf url.toList '/' with
  | some i =>
    have hlt := lastIdxOf_lt_length h
    have hle : (i + 1) % 2 ^ 64 ≤ url.toList.length :=
      le_trans (Nat.mod_le _ _) (Nat.succ_le_of_lt hlt)
    rw [cppSubstrFrom, if_pos hle]
    exact ⟨_, rfl⟩
  | none =>
    have h0 : (NPOS + 1) % 2 ^ 64 = 0 := by
      have he : NPOS + 1 = 2 ^ 64 := by norm_num [NPOS]
      rw [he, Nat.mod_self]
    rw [h0, cppSubstrFrom, if_pos (Nat.zero_le _)]
    exact ⟨_, rfl⟩

/-! ### Claim theorems -/

/-- C1 (code bug): the rename guard of `retrieve_reference` is the literal
conjunction `suffix == "fa" && suffix == "fasta"`, which no suffix satisfies,
so a downloaded reference whose suffix is `fa` is not renamed to
`reference.fasta`; it falls into the decompressor lookup and raises the fatal
`Unknown suffix "fa"` error instead of being treated as uncompressed FASTA. -/
theorem C1_fa_download_raises_unknown_suffix (d r : String) (h : suffix_of d = "fa") :
    reference_suffix_step d r = .error ("Unknown suffix \"fa\"") := by
  simp only [reference_suffix_step, h]
  rw [if_neg (by decide)]
  rfl

/-- C1 witness: the concrete downloaded file `reference.fa` has suffix `fa`
and the suffix-handling step raises `Unknown suffix "fa"`. -/
theorem C1_witness :
    suffix_of "reference.fa" = "fa"
    ∧ reference_suffix_step "reference.fa" "cache/reference.fasta" =
        .error ("Unknown suffix \"fa\"") :=
  ⟨by decide,
   C1_fa_download_raises_unknown_suffix "reference.fa" "cache/reference.fasta" (by decide)⟩

/-- C2 counterexample: with a configured timeout of 300, a failing download
leaves the timeout at 1000 after `download_file` exits, not at the original
value 300 — the restoring `options` call is skipped when `download.file`
raises. -/
theorem C2_counterexample :
    (download_file_timeout ⟨300⟩ true).2.1.timeout ≠ 300 := by decide

/-- C2 amended: during the transfer the effective timeout is
`max 1000 original` (hence at least 1000); after a successful download the
timeout is restored to its original value, but when the download raises, the
timeout keeps the raised value `max 1000 original`. -/
theorem C2_timeout_raised_restored_only_on_success (t : Int) (raises : Bool) :
    1000 ≤ (download_file_timeout ⟨t⟩ raises).2.2
    ∧ (download_file_timeout ⟨t⟩ raises).2.2 = max 1000 t
    ∧ (download_file_timeout ⟨t⟩ false).2.1.timeout = t
    ∧ (download_file_timeout ⟨t⟩ true).2.1.timeout = max 1000 t := by
  cases raises <;> exact ⟨le_max_left _ _, rfl, rfl, rfl⟩

/-- C3 counterexample: over a directory `d` containing `population.csv`,
`population_descriptions.csv` and `alleles_per_chr.csv` but not
`germlines.csv`, construction fails, but the raised message does not name the
missing file `germlines.csv`: the source spells it `germline.csv`. -/
theorem C3_counterexample :
    GermlineStorage_ctor
      ⟨fun p => p == "d" || p == "d/population.csv" ||
                p == "d/population_descriptions.csv" || p == "d/alleles_per_chr.csv",
       fun p => p == "d"⟩ "d" =
      .error
        "Designed germline mutations directory \"d\" does not contains the file \"germline.csv\"."
    ∧ strContains
        "Designed germline mutations directory \"d\" does not contains the file \"germline.csv\"."
        "germlines.csv" = false :=
  ⟨by rfl, by decide⟩

/-- C3 amended: `GermlineStorage` construction fails when the path does not
exist or is not a directory; a missing required file is reported, in the check
order `germlines.csv`, `population.csv`, `population_descriptions.csv`,
`alleles_per_chr.csv`, with a message naming the directory and the file —
except that the message for a missing `germlines.csv` spells it
`germline.csv`; over a directory with all four files construction succeeds. -/
theorem C3_germline_ctor_validation (fs : FS) (dir : String) :
    (fs.ex dir = false →
      GermlineStorage_ctor fs dir =
        .error ("Designed germline mutations directory \"" ++ dir ++ "\" does not exist."))
    ∧ (fs.ex dir = true → fs.isDir dir = false →
      GermlineStorage_ctor fs dir =
        .error ("Designed germline mutations directory \"" ++ dir ++ "\" is not a directory."))
    ∧ (fs.ex dir = true → fs.isDir dir = true → fs.ex (germline_file dir) = false →
      GermlineStorage_ctor fs dir =
        .error ("Designed germline mutations directory \"" ++ dir ++
                "\" does not contains the file \"germline.csv\"."))
    ∧ (fs.ex dir = true → fs.isDir dir = true → fs.ex (germline_file dir) = true →
      fs.ex (population_file dir) = false →
      GermlineStorage_ctor fs dir =
        .error ("Designed germline mutations directory \"" ++ dir ++
                "\" does not contains the file \"population.csv\"."))
    ∧ (fs.ex dir = true → fs.isDir dir = true → fs.ex (germline_file dir) = true →
      fs.ex (population_file dir) = true → fs.ex (population_descriptions_file dir) = false →
      GermlineStorage_ctor fs dir =
        .error ("Designed germline mutations directory \"" ++ dir ++
                "\" does not contains the file \"population_descriptions.csv\"."))
    ∧ (fs.ex dir = true → fs.isDir dir = true → fs.ex (germline_file dir) = true →
      fs.ex (population_file dir) = true → fs.ex (population_descriptions_file dir) = true →
      fs.ex (alleles_file dir) = false →
      GermlineStorage_ctor fs dir =
        .error ("Designed germline mutations directory \"" ++ dir ++
                "\" does not contains the file \"alleles_per_chr.csv\"."))
    ∧ (fs.ex dir = true → fs.isDir dir = true → fs.ex (germline_file dir) = true →
      fs.ex (population_file dir) = true → fs.ex (population_descriptions_file dir) = true →
      fs.ex (alleles_file dir) = true →
      GermlineStorage_ctor fs dir = .ok ()) := by
  refine ⟨?_, ?_, ?_, ?_, ?_, ?_, ?_⟩ <;> intros <;> simp_all [GermlineStorage_ctor]

/-- C3 witness: a directory holding all four files is accepted, and one with
`population.csv` missing is rejected with the message naming the directory
and `population.csv`. -/
theorem C3_witness :
    GermlineStorage_ctor
      ⟨fun p => p == "d" || p == "d/germlines.csv" || p == "d/population.csv" ||
                p == "d/population_descriptions.csv" || p == "d/alleles_per_chr.csv",
       fun p => p == "d"⟩ "d" = .ok ()
    ∧ GermlineStorage_ctor
        ⟨fun p => p == "d" || p == "d/germlines.csv", fun p => p == "d"⟩ "d" =
      .error
        "Designed germline mutations directory \"d\" does not contains the file \"population.csv\"." := by
  constructor
  · exact (C3_germline_ctor_validation
      ⟨fun p => p == "d" || p == "d/germlines.csv" || p == "d/population.csv" ||
                p == "d/population_descriptions.csv" || p == "d/alleles_per_chr.csv",
       fun p => p == "d"⟩ "d").2.2.2.2.2.2 rfl rfl rfl rfl rfl rfl
  · exact (C3_germline_ctor_validation
      ⟨fun p => p == "d" || p == "d/germlines.csv", fun p => p == "d"⟩ "d").2.2.2.1
      rfl rfl rfl rfl

/-- C5 counterexample: a source string with no `/` does not make
`get_destination_path` fail — `find_last_of` yields `npos`, `npos + 1` wraps
to 0, and the whole string becomes the file name joined to the directory. -/
theorem C5_counterexample :
    ('/' ∈ "abc".toList → False)
    ∧ get_destination_path "D" "abc" = .ok "D/abc"
    ∧ ∀ msg, get_destination_path "D" "abc" ≠ .error msg := by
  refine ⟨by decide, by rfl, ?_⟩
  intro msg h
  rw [show get_destination_path "D" "abc" = .ok "D/abc" from rfl] at h
  cases h

/-- C5 amended: for every source string with no `/`, `get_destination_path`
raises no error: the `npos + 1` position wraps to 0, so it returns the
storage directory joined with the whole string (truncated at the first `?`
when present). -/
theorem C5_no_slash_returns_whole_string (dir url : String) (h : '/' ∉ url.toList) :
    get_destination_path dir url =
      .ok (pjoin dir (String.mk (url.toList.takeWhile (fun x => x != '?')))) := by
  have hn : lastIdxOf url.toList '/' = none := lastIdxOf_eq_none_of_not_mem h
  have h0 : (NPOS + 1) % 2 ^ 64 = 0 := by
    have he : NPOS + 1 = 2 ^ 64 := by norm_num [NPOS]
    rw [he, Nat.mod_self]
  simp only [get_destination_path, hn, h0]
  rw [cppSubstrFrom, if_pos (Nat.zero_le _), List.drop_zero]
  exact congrArg (fun l => Except.ok (pjoin dir (String.mk l)))
    (strip_at_question_eq_takeWhile url.toList)

/-- C5 witness: at the slash-free source `abc?x=1` the routine succeeds and
keeps the text before the `?`. -/
theorem C5_witness :
    get_destination_path "D" "abc?x=1" = .ok "D/abc" := by
  rw [C5_no_slash_returns_whole_string "D" "abc?x=1" (by decide)]
  rfl

/-- C6: for every URL containing a `/` (of `size_t`-representable length),
`get_destination_path` returns the storage directory joined with the text
after the last `/`, truncated at the first `?` when one is present. -/
theorem C6_destination_path_last_segment (dir url : String)
    (h : '/' ∈ url.toList) (hlen : url.toList.length < 2 ^ 64) :
    get_destination_path dir url =
      .ok (pjoin dir (String.mk
        ((url.toList.reverse.takeWhile (fun x => x != '/')).reverse.takeWhile
          (fun x => x != '?')))) := by
  obtain ⟨i, hi⟩ := lastIdxOf_isSome_of_mem h
  have hlt : i < url.toList.length := lastIdxOf_lt_length hi
  have hle : i + 1 ≤ url.toList.length := Nat.succ_le_of_lt hlt
  have hmod : (i + 1) % 2 ^ 64 = i + 1 :=
    Nat.mod_eq_of_lt (Nat.lt_of_le_of_lt hle hlen)
  simp only [get_destination_path, hi, hmod]
  rw [cppSubstrFrom, if_pos hle, drop_lastIdxOf_succ hi]
  exact congrArg (fun l => Except.ok (pjoin dir (String.mk l)))
    (strip_at_question_eq_takeWhile _)

/-- C6 witness: the documented instance
`get_destination_path("https://host/dir/file.txt.gz?x=1") = D/"file.txt.gz"`. -/
theorem C6_witness :
    get_destination_path "D" "https://host/dir/file.txt.gz?x=1" = .ok "D/file.txt.gz" := by
  rw [C6_destination_path_last_segment "D" "https://host/dir/file.txt.gz?x=1"
    (by decide) (by decide)]
  rfl

theorem collect_signatures_characterization (fs : FS) (src dst : String)
    (acc : List (String × String))
    (h : fs.ex dst = false → fs.ex src = false → is_an_URL src = true) :
    collect_signatures_download_list fs src dst acc =
      .ok (acc ++ (if fs.ex dst || fs.ex src then [] else [(src, dst)])) := by
  unfold collect_signatures_download_list
  cases h1 : fs.ex dst with
  | true => simp
  | false =>
    cases h2 : fs.ex src with
    | true => simp
    | false =>
      have hu := h h1 h2
      simp [hu]

/-- C4: `retrieve_signatures` collects the remote, not-yet-cached SBS and
indel sources into one list `L` (SBS first); when some collected URL matches
the COSMIC pattern the whole batch goes through `download_COSMIC`, which
fails with the account message when the account is absent and fetches every
entry inside the one authenticated session otherwise; when no collected URL
matches, every entry is downloaded independently via the plain routine and a
missing account causes no error. -/
theorem C4_signature_batch_routing (g : GenomicDataStorage) (fs : FS) (a : Account)
    (h1 : fs.ex (SBS_signatures_storage_path g) = false →
          fs.ex g.SBS_signatures_src = false → is_an_URL g.SBS_signatures_src = true)
    (h2 : fs.ex (indel_signatures_storage_path g) = false →
          fs.ex g.indel_signatures_src = false → is_an_URL g.indel_signatures_src = true) :
    ∃ L : List (String × String),
      L = (if fs.ex (SBS_signatures_storage_path g) || fs.ex g.SBS_signatures_src then []
           else [(g.SBS_signatures_src, SBS_signatures_storage_path g)]) ++
          (if fs.ex (indel_signatures_storage_path g) || fs.ex g.indel_signatures_src then []
           else [(g.indel_signatures_src, indel_signatures_storage_path g)])
      ∧ (signatures_from_COSMIC L = true →
           retrieve_signatures g fs none = .error COSMIC_account_message
           ∧ retrieve_signatures g fs (some a) =
               .ok (L.map fun p => Effect.cosmicFetch p.1 p.2))
      ∧ (signatures_from_COSMIC L = false → ∀ acct : Option Account,
           retrieve_signatures g fs acct = .ok (L.map fun p => Effect.download p.1 p.2)) := by
  have e1 := collect_signatures_characterization fs g.SBS_signatures_src
    (SBS_signatures_storage_path g) [] h1
  have e2 := collect_signatures_characterization fs g.indel_signatures_src
    (indel_signatures_storage_path g)
    ((if fs.ex (SBS_signatures_storage_path g) || fs.ex g.SBS_signatures_src then []
      else [(g.SBS_signatures_src, SBS_signatures_storage_path g)])) h2
  rw [List.nil_append] at e1
  have hr : ∀ acct : Option Account, retrieve_signatures g fs acct =
      if signatures_from_COSMIC
           ((if fs.ex (SBS_signatures_storage_path g) || fs.ex g.SBS_signatures_src then []
             else [(g.SBS_signatures_src, SBS_signatures_storage_path g)]) ++
            (if fs.ex (indel_signatures_storage_path g) || fs.ex g.indel_signatures_src then []
             else [(g.indel_signatures_src, indel_signatures_storage_path g)])) then
        download_COSMIC acct
          ((if fs.ex (SBS_signatures_storage_path g) || fs.ex g.SBS_signatures_src then []
            else [(g.SBS_signatures_src, SBS_signatures_storage_path g)]) ++
           (if fs.ex (indel_signatures_storage_path g) || fs.ex g.indel_signatures_src then []
            else [(g.indel_signatures_src, indel_signatures_storage_path g)]))
      else
        .ok ((((if fs.ex (SBS_signatures_storage_path g) || fs.ex g.SBS_signatures_src then []
                else [(g.SBS_signatures_src, SBS_signatures_storage_path g)]) ++
               (if fs.ex (indel_signatures_storage_path g) || fs.ex g.indel_signatures_src then []
                else [(g.indel_signatures_src, indel_signatures_storage_path g)]))).map
              fun p => Effect.download p.1 p.2) := by
    intro acct
    simp only [retrieve_signatures, e1, e2]
  refine ⟨_, rfl, ?_, ?_⟩
  · intro hc
    constructor
    · rw [hr none, if_pos hc]
      rfl
    · rw [hr (some a), if_pos hc]
      rfl
  · intro hc acct
    rw [hr acct, if_neg (by rw [hc]; exact Bool.false_ne_true)]

/-- C4 witness: a batch containing a COSMIC URL (`https://cancer.sanger.ac.uk/...`)
mixed with a non-COSMIC URL fails with the COSMIC account message when no
account is given. -/
theorem C4_witness :
    retrieve_signatures
      ⟨"dir", "r", "https://cancer.sanger.ac.uk/signatures/sbs.tsv",
       "https://example.org/id.txt", "dr", "c", "ge"⟩
      ⟨fun _ => false, fun _ => false⟩ none = .error COSMIC_account_message := by
  obtain ⟨L, hL, hcos, hplain⟩ :=
    C4_signature_batch_routing
      ⟨"dir", "r", "https://cancer.sanger.ac.uk/signatures/sbs.tsv",
       "https://example.org/id.txt", "dr", "c", "ge"⟩
      ⟨fun _ => false, fun _ => false⟩ ⟨"u", "p"⟩
      (fun _ _ => by decide) (fun _ _ => by decide)
  subst hL
  exact (hcos (by decide)).1

/-- C7: whenever a configured source exists as a local filesystem path, the
resolved-path accessor returns the configured source itself; and when every
configured source is local, every retrieval routine returns without recording
a single download effect. -/
theorem C7_local_source_short_circuit (g : GenomicDataStorage) (fs : FS)
    (h1 : fs.ex g.reference_src = true) (h2 : fs.ex g.drivers_src = true)
    (h3 : fs.ex g.passenger_CNAs_src = true) (h4 : fs.ex g.germline_src = true)
    (h5 : fs.ex g.SBS_signatures_src = true) (h6 : fs.ex g.indel_signatures_src = true) :
    get_reference_path g fs = g.reference_src
    ∧ get_driver_mutations_path g fs = g.drivers_src
    ∧ get_passenger_CNAs_path g fs = g.passenger_CNAs_src
    ∧ get_germline_path g fs = g.germline_src
    ∧ get_SBS_signatures_path g fs = g.SBS_signatures_src
    ∧ get_indel_signatures_path g fs = g.indel_signatures_src
    ∧ retrieve_reference g fs = .ok []
    ∧ retrieve_drivers g fs = .ok []
    ∧ retrieve_passenger_CNAs g fs = .ok []
    ∧ retrieve_germline g fs = .ok []
    ∧ ∀ acct : Option Account, retrieve_signatures g fs acct = .ok [] := by
  refine ⟨by simp [get_reference_path, h1], by simp [get_driver_mutations_path, h2],
          by simp [get_passenger_CNAs_path, h3], by simp [get_germline_path, h4],
          by simp [get_SBS_signatures_path, h5], by simp [get_indel_signatures_path, h6],
          by simp [retrieve_reference, get_reference_path, h1],
          by simp [retrieve_drivers, h2],
          by simp [retrieve_passenger_CNAs, h3],
          by simp [retrieve_germline, h4],
          ?_⟩
  intro acct
  have e1 := collect_signatures_characterization fs g.SBS_signatures_src
    (SBS_signatures_storage_path g) [] (fun _ hf => absurd h5 (by simp [hf]))
  have e2 := collect_signatures_characterization fs g.indel_signatures_src
    (indel_signatures_storage_path g)
    ([] ++ (if fs.ex (SBS_signatures_storage_path g) || fs.ex g.SBS_signatures_src then []
            else [(g.SBS_signatures_src, SBS_signatures_storage_path g)]))
    (fun _ hf => absurd h6 (by simp [hf]))
  simp only [retrieve_signatures, e1, e2]
  simp [h5, h6, signatures_from_COSMIC]

/-- C7 witness: with every source present on the filesystem, the reference
accessor returns the configured source and signature retrieval downloads
nothing even without an account. -/
theorem C7_witness :
    get_reference_path ⟨"dir", "r", "s", "i", "dr", "c", "ge"⟩
      ⟨fun _ => true, fun _ => true⟩ = "r"
    ∧ retrieve_signatures ⟨"dir", "r", "s", "i", "dr", "c", "ge"⟩
        ⟨fun _ => true, fun _ => true⟩ none = .ok [] := by
  have h := C7_local_source_short_circuit ⟨"dir", "r", "s", "i", "dr", "c", "ge"⟩
    ⟨fun _ => true, fun _ => true⟩ rfl rfl rfl rfl rfl rfl
  exact ⟨h.1, h.2.2.2.2.2.2.2.2.2.2 none⟩

/-- C8 counterexample: with two `population.csv` rows sharing the name `A`,
the subject parsed from the second row is returned by `get_population`, yet
`get_subject` on its name returns the subject of the first row, which differs
from it — the round-trip fails on duplicate names. -/
theorem C8_counterexample :
    subject_of_row ["A", "p2", "s2", "f"] ∈
      get_population [["A", "p1", "s1", "m"], ["A", "p2", "s2", "f"]]
    ∧ get_subject [["A", "p1", "s1", "m"], ["A", "p2", "s2", "f"]]
        (subject_of_row ["A", "p2", "s2", "f"]).name = .ok (subject_of_row ["A", "p1", "s1", "m"])
    ∧ subject_of_row ["A", "p1", "s1", "m"] ≠ subject_of_row ["A", "p2", "s2", "f"] :=
  ⟨by decide, by rfl, by decide⟩

/-- C8 amended: `get_subject` returns the subject of the first row whose
first field equals the requested name, so the round-trip through
`get_population` holds for every subject whose name appears in no earlier
row (in particular whenever names are distinct); for a name that is the
first field of no row, `get_subject` fails with the error naming that
subject. -/
theorem C8_subject_lookup (rows : List (List String)) (name : String) :
    (∀ pre row post, rows = pre ++ row :: post →
       (∀ r ∈ pre, get_field r 0 ≠ get_field row 0) →
       get_subject rows (subject_of_row row).name = .ok (subject_of_row row))
    ∧ ((∀ r ∈ rows, get_field r 0 ≠ name) →
       get_subject rows name = .error ("Germline subject \"" ++ name ++ "\" not available.")) := by
  constructor
  · intro pre row post hrows hpre
    subst hrows
    induction pre with
    | nil =>
      unfold get_subject
      rw [List.nil_append, List.find?_cons_of_pos _ (by simp [subject_of_row])]
    | cons p ps ih =>
      have hp : (get_field p 0 == (subject_of_row row).name) = false := by
        simp only [beq_eq_false_iff_ne, ne_eq, subject_of_row]
        exact hpre p (List.mem_cons_self p ps)
      have hrest := ih (fun r hr => hpre r (List.mem_cons_of_mem p hr))
      unfold get_subject at hrest ⊢
      rw [List.cons_append, List.find?_cons_of_neg _ (by simp [hp])]
      exact hrest
  · intro hnone
    unfold get_subject
    have hfind : rows.find? (fun row => get_field row 0 == name) = none := by
      rw [List.find?_eq_none]
      intro r hr
      simp only [beq_iff_eq]
      exact hnone r hr
    rw [hfind]

/-- C8 witness: over a one-row population file the row round-trips, and an
absent name raises the error naming it. -/
theorem C8_witness :
    get_subject [["B", "p", "s", "g"]] "B" = .ok ⟨"B", "p", "s", "g"⟩
    ∧ get_subject [["B", "p", "s", "g"]] "Z" =
        .error ("Germline subject \"Z\" not available.") := by
  constructor
  · exact (C8_subject_lookup [["B", "p", "s", "g"]] "Z").1 [] ["B", "p", "s", "g"] []
      rfl (by simp)
  · exact (C8_subject_lookup [["B", "p", "s", "g"]] "Z").2 (by decide)

/-- C9: when the germline source is remote (not a local path), the germline
dataset counts as cached exactly when the single file
`germline_data/germlines.csv` exists — `retrieve_germline` then performs no
download or extraction; the other three required files are not checked at
this step, and a `germline_data` directory holding `germlines.csv` but
missing another required file makes the later `GermlineStorage` validation
over `get_germline_path` fail instead. -/
theorem C9_germline_cache_single_file (g : GenomicDataStorage) (fs : FS)
    (h1 : fs.ex g.germline_src = false) (h2 : is_an_URL g.germline_src = true) :
    (retrieve_germline g fs = .ok [] ↔
       fs.ex (pjoin (germline_storage_path g) "germlines.csv") = true)
    ∧ get_germline_path g fs = germline_storage_path g
    ∧ (fs.ex (pjoin (germline_storage_path g) "germlines.csv") = true →
       fs.ex (germline_storage_path g) = true →
       fs.isDir (germline_storage_path g) = true →
       (fs.ex (population_file (germline_storage_path g)) = false
        ∨ fs.ex (population_descriptions_file (germline_storage_path g)) = false
        ∨ fs.ex (alleles_file (germline_storage_path g)) = false) →
       ∃ e, GermlineStorage_ctor fs (germline_storage_path g) = .error e) := by
  refine ⟨?_, by simp [get_germline_path, h1], ?_⟩
  · cases hc : fs.ex (pjoin (germline_storage_path g) "germlines.csv") with
    | true =>
      simp [retrieve_germline, h1, h2, hc]
    | false =>
      obtain ⟨s, hs⟩ := get_destination_path_ok g.directory g.germline_src
      simp [retrieve_germline, h1, h2, hc, hs]
  · intro h3 h4 h5 hmiss
    cases hpop : fs.ex (population_file (germline_storage_path g)) with
    | false =>
      refine ⟨"Designed germline mutations directory \"" ++ germline_storage_path g ++
              "\" does not contains the file \"population.csv\".", ?_⟩
      simp [GermlineStorage_ctor, germline_file, h3, h4, h5, hpop]
    | true =>
      cases hdes : fs.ex (population_descriptions_file (germline_storage_path g)) with
      | false =>
        refine ⟨"Designed germline mutations directory \"" ++ germline_storage_path g ++
                "\" does not contains the file \"population_descriptions.csv\".", ?_⟩
        simp [GermlineStorage_ctor, germline_file, h3, h4, h5, hpop, hdes]
      | true =>
        cases hall : fs.ex (alleles_file (germline_storage_path g)) with
        | false =>
          refine ⟨"Designed germline mutations directory \"" ++ germline_storage_path g ++
                  "\" does not contains the file \"alleles_per_chr.csv\".", ?_⟩
          simp [GermlineStorage_ctor, germline_file, h3, h4, h5, hpop, hdes, hall]
        | true =>
          rcases hmiss with hm | hm | hm <;> simp_all

/-- C9 witness: with a remote germline source, a `germline_data` directory
holding only `germlines.csv` is treated as cached (no download) and the
subsequent `GermlineStorage` validation fails. -/
theorem C9_witness :
    retrieve_germline ⟨"dir", "r", "s", "i", "dr", "c", "https://host/g.tar.gz"⟩
      ⟨fun p => p == "dir/germline_data" || p == "dir/germline_data/germlines.csv",
       fun p => p == "dir/germline_data"⟩ = .ok []
    ∧ ∃ e, GermlineStorage_ctor
        ⟨fun p => p == "dir/germline_data" || p == "dir/germline_data/germlines.csv",
         fun p => p == "dir/germline_data"⟩
        (germline_storage_path ⟨"dir", "r", "s", "i", "dr", "c", "https://host/g.tar.gz"⟩) =
        .error e := by
  have h := C9_germline_cache_single_file
    ⟨"dir", "r", "s", "i", "dr", "c", "https://host/g.tar.gz"⟩
    ⟨fun p => p == "dir/germline_data" || p == "dir/germline_data/germlines.csv",
     fun p => p == "dir/germline_data"⟩ (by decide) (by decide)
  exact ⟨h.1.mpr (by decide),
         h.2.2 (by decide) (by decide) (by decide) (Or.inl (by decide))⟩

theorem lookupAL_append (m m' : List (Nat × Nat)) (k : Nat) :
    lookupAL (m ++ m') k =
      match lookupAL m k with
      | some v => some v
      | none => lookupAL m' k := by
  induction m with
  | nil => simp [lookupAL]
  | cons a rest ih =>
    obtain ⟨ka, va⟩ := a
    by_cases hk : ka = k
    · simp [lookupAL, hk]
    · simp [lookupAL, hk, ih]

theorem lookupAL_foldl_mapInsert (key val : List String → Nat)
    (rows : List (List String)) (m : List (Nat × Nat)) (k : Nat) :
    lookupAL (rows.foldl (fun acc row => mapInsert acc (key row) (val row)) m) k =
      match lookupAL m k with
      | some v => some v
      | none => (rows.find? (fun row => key row == k)).map val := by
  induction rows generalizing m with
  | nil => cases h : lookupAL m k <;> simp [h]
  | cons r rs ih =>
    rw [List.foldl_cons, ih]
    by_cases hk : key r = k
    · rw [List.find?_cons_of_pos _ (by simp [hk])]
      cases hm : lookupAL m k with
      | some v =>
        have hins : lookupAL (mapInsert m (key r) (val r)) k = some v := by
          rw [mapInsert, hk, hm]
          exact hm
        rw [hins]
      | none =>
        have hins : lookupAL (mapInsert m (key r) (val r)) k = some (val r) := by
          rw [mapInsert, hk, hm, lookupAL_append, hm]
          simp [lookupAL]
        rw [hins]
        rfl
    · have hbeq : (key r == k) = false := by simp [hk]
      rw [List.find?_cons_of_neg _ (by simp [hk])]
      have hins : lookupAL (mapInsert m (key r) (val r)) k = lookupAL m k := by
        rw [mapInsert]
        cases hm : lookupAL m (key r) with
        | some v => rfl
        | none =>
          rw [lookupAL_append]
          cases h2 : lookupAL m k <;> simp [lookupAL, hk, h2]
      rw [hins]

/-- C10: in `get_alleles_per_chromosome`, the value recorded for every
chromosome key is the one parsed from the first data row mapping to that key
— `std::map::insert` does not overwrite an existing key, so a later duplicate
row is ignored. -/
theorem C10_duplicate_chromosome_first_wins (stochr stoul : String → Nat)
    (header : List String) (rows : List (List String)) (gender : String) (index : Nat)
    (h : firstIdxOf header gender = some index) :
    ∃ m, get_alleles_per_chromosome stochr stoul header rows gender = .ok m
      ∧ ∀ k, lookupAL m k =
          ((rows.find? fun row => stochr (get_field row 0) == k).map
            fun row => stoul (get_field row index)) := by
  unfold get_alleles_per_chromosome
  rw [h]
  refine ⟨_, rfl, fun k => ?_⟩
  rw [lookupAL_foldl_mapInsert (fun row => stochr (get_field row 0))
    (fun row => stoul (get_field row index)) rows [] k]
  rfl

/-- C10 witness: two rows with the same parsed chromosome key (length of
`aa`) keep the count of the earlier row (length of `bbb`, i.e. 3), not the
later one. -/
theorem C10_witness :
    ∃ m, get_alleles_per_chromosome (fun s => s.toList.length) (fun s => s.toList.length)
          ["chr", "male"] [["aa", "bbb"], ["aa", "c"]] "male" = .ok m
      ∧ lookupAL m 2 = some 3 := by
  obtain ⟨m, hm, hl⟩ := C10_duplicate_chromosome_first_wins
    (fun s => s.toList.length) (fun s => s.toList.length)
    ["chr", "male"] [["aa", "bbb"], ["aa", "c"]] "male" 1 (by decide)
  refine ⟨m, hm, ?_⟩
  rw [hl 2]
  decide

end ProCESS
